import Mathlib

/-!
Shallow embedding of the simple-tagged-error library (src/index.ts).

The source is a single factory:

  export function TaggedError<Tag extends string>(tag: Tag) {
    return class<T extends object = \x7b\x7d> extends Error {
      readonly _tag: Tag = tag;
      constructor(props?: T) {
        super(tag);
        Object.setPrototypeOf(this, new.target.prototype);
        if (props) { Object.assign(this, props); }
        this.name = tag;
      }
    } as ...;
  }

The embedding models JavaScript objects as ordered association lists of
property descriptors (value, writable, enumerable), following ECMA-262
semantics for the operations the source uses:
  - the base Error constructor (super(tag)) installs own, writable,
    NON-enumerable data properties "message" and "stack" (the spec calls
    the latter the trace), the stack value being host-captured;
  - a class field initializer (the line readonly _tag = tag) runs right
    after super returns and uses CreateDataProperty: own, writable,
    enumerable;
  - Object.assign copies each own enumerable property of the props object
    (object literals have only such properties) onto the target with
    ordinary [[Set]]: an existing own writable data property keeps its
    position and attributes and gets the new value, an absent key is
    appended as own, writable, enumerable;
  - the assignment this.name = tag is also an ordinary [[Set]]; since no
    own "name" exists and Error.prototype.name is a plain data property,
    it creates an own, writable, enumerable property (after the merge);
  - Object.setPrototypeOf(this, new.target.prototype) re-points the
    instance's prototype chain at the variant class's prototype.

Class identity is modelled by a fresh numeric id allocated per factory
call (the factory threads an allocation counter, mirroring the fact that
every call to TaggedError evaluates a fresh class expression); the base
Error prototype has the fixed id 0 and fresh ids start at 1.  The
instanceof operator is prototype-chain membership.
-/

namespace SimpleTaggedError

/-- Runtime values stored in object properties: strings, numbers, and an
opaque constructor for every other value a caller might put in a props
object (object references, booleans, ...). -/
inductive JSValue where
  | str (s : String)
  | num (n : Int)
  | obj (id : Nat)
deriving DecidableEq, Repr

/-- A property descriptor: the data value together with the writable and
enumerable attributes (configurable plays no role in any claim and is
omitted; every property the construction creates is configurable). -/
structure FieldDesc where
  value : JSValue
  writable : Bool
  enumerable : Bool
deriving DecidableEq, Repr

/-- Own properties of an object, in insertion order (JS string-keyed own
properties are enumerated in insertion order). -/
abbrev Fields := List (String × FieldDesc)

/-- Look up the own property named k. -/
def getOwn : Fields → String → Option FieldDesc
  | [], _ => none
  | (k', d) :: rest, k => if k' = k then some d else getOwn rest k

/-- Value of the own property named k, if present. -/
def valueOf (fs : Fields) (k : String) : Option JSValue :=
  (getOwn fs k).map FieldDesc.value

/-- Ordinary [[Set]] for the keys this program touches (no accessor is
installed for them anywhere on the relevant prototype chains): an existing
own writable data property keeps its position and attributes and receives
the new value; a non-writable one rejects the write; an absent key is
created at the end as own, writable, enumerable. -/
def jsSetField : Fields → String → JSValue → Fields
  | [], k, v => [(k, ⟨v, true, true⟩)]
  | (k', d) :: rest, k, v =>
    if k' = k then
      (if d.writable then (k', { d with value := v }) :: rest else (k', d) :: rest)
    else
      (k', d) :: jsSetField rest k v

/-- CreateDataProperty, as used by a class field initializer: defines an
own, writable, enumerable data property regardless of a previous one. -/
def defineOwnField : Fields → String → JSValue → Fields
  | [], k, v => [(k, ⟨v, true, true⟩)]
  | (k', d) :: rest, k, v =>
    if k' = k then (k', ⟨v, true, true⟩) :: rest
    else (k', d) :: defineOwnField rest k v

/-- Own properties installed by the base Error constructor called as
super(tag): "message" (own, writable, non-enumerable, per ECMA-262
Error(message)) and the host-captured "stack" string (own, writable,
non-enumerable in the major engines), which the spec calls the trace. -/
def errorSuper (msg : String) (stackVal : String) : Fields :=
  [("message", ⟨.str msg, true, false⟩), ("stack", ⟨.str stackVal, true, false⟩)]

/-- Prototype id of Error.prototype. -/
def errorClassId : Nat := 0

/-- One variant class produced by a call to the TaggedError factory: its
fixed tag and the identity of its prototype object. -/
structure VariantClass where
  tag : String
  classId : Nat
deriving DecidableEq, Repr

/-- The factory TaggedError(tag).  Every call evaluates a fresh class
expression, so the embedding threads an allocation counter and gives each
returned class a fresh prototype id (always distinct from errorClassId).
The source performs no validation of the tag whatsoever: the function is
total and returns a class for every string, the empty string included. -/
def TaggedError (tag : String) (st : Nat) : VariantClass × Nat :=
  ({ tag := tag, classId := st + 1 }, st + 1)

/-- A constructed error instance: its prototype chain (as prototype ids,
instance first) and its own properties. -/
structure ErrorInstance where
  protoChain : List Nat
  fields : Fields
deriving DecidableEq, Repr

/-- Object.assign(target, props): copy each own enumerable property of
props (an object literal: all its properties, unique keys, in order) onto
the target with [[Set]]. -/
def objectAssign (fs : Fields) (props : List (String × JSValue)) : Fields :=
  props.foldl (fun acc kv => jsSetField acc kv.1 kv.2) fs

/-- Object.setPrototypeOf(this, new.target.prototype): the instance's
chain becomes the variant class's prototype followed by Error.prototype.
This is the identity-correction step of the constructor; before it runs
the generic base-error construction path leaves the object typed as the
base kind only. -/
def setPrototypeOf (_old : List Nat) (cls : VariantClass) : List Nat :=
  [cls.classId, errorClassId]

/-- The constructor of the class returned by TaggedError(tag), run on an
optional props object.  Steps, in the order the host executes them:
super(tag); the _tag field initializer (runs immediately after super
returns, before the rest of the constructor body); setPrototypeOf;
Object.assign of props if supplied; finally this.name = tag.  The
stackVal parameter is the trace string the host captures at the call
site. -/
def construct (cls : VariantClass) (props : Option (List (String × JSValue)))
    (stackVal : String) : ErrorInstance :=
  let f0 := errorSuper cls.tag stackVal
  let f1 := defineOwnField f0 "_tag" (.str cls.tag)
  let chain := setPrototypeOf [errorClassId] cls
  let f2 := match props with
    | none => f1
    | some p => objectAssign f1 p
  let f3 := jsSetField f2 "name" (.str cls.tag)
  { protoChain := chain, fields := f3 }

/-- The instanceof operator against a variant class: membership of the
class's prototype in the instance's prototype chain. -/
def instanceOfVariant (e : ErrorInstance) (cls : VariantClass) : Bool :=
  e.protoChain.contains cls.classId

/-- The instanceof operator against the base Error class. -/
def instanceOfError (e : ErrorInstance) : Bool :=
  e.protoChain.contains errorClassId

/-- Value of the own property named k on an instance. -/
def getOwnValue (e : ErrorInstance) (k : String) : Option JSValue :=
  valueOf e.fields k

/-- All own property keys of an instance, in order. -/
def ownKeys (e : ErrorInstance) : List String :=
  e.fields.map Prod.fst

/-- The own ENUMERABLE property keys of an instance, in order (what
Object.keys or a for-in over own properties reports). -/
def enumOwnKeys (e : ErrorInstance) : List String :=
  (e.fields.filter (fun kd => kd.2.enumerable)).map Prod.fst

/-- An ordinary property assignment on an existing instance, such as
writing e._tag = v after construction. -/
def jsSet (e : ErrorInstance) (k : String) (v : JSValue) : ErrorInstance :=
  { e with fields := jsSetField e.fields k v }

/-- Every own property of fs is writable.  Every property the construction
path creates is writable, so this invariant is preserved everywhere. -/
def allWritable (fs : Fields) : Prop := ∀ kd ∈ fs, kd.2.writable = true

/-- The own fields right after super(tag) and the _tag field initializer
have run: message, stack (both non-enumerable), then _tag (enumerable). -/
def preMergeFields (tag stackVal : String) : Fields :=
  [("message", ⟨.str tag, true, false⟩),
   ("stack", ⟨.str stackVal, true, false⟩),
   ("_tag", ⟨.str tag, true, true⟩)]

/-! Basic lemmas about the object model. -/

theorem getOwn_nil (k : String) : getOwn [] k = none := rfl

theorem getOwn_cons (k' : String) (d : FieldDesc) (fs : Fields) (k : String) :
    getOwn ((k', d) :: fs) k = if k' = k then some d else getOwn fs k := rfl

theorem jsSetField_cons (k' : String) (d : FieldDesc) (fs : Fields) (k : String) (v : JSValue) :
    jsSetField ((k', d) :: fs) k v =
      if k' = k then
        (if d.writable then (k', { d with value := v }) :: fs else (k', d) :: fs)
      else (k', d) :: jsSetField fs k v := rfl

theorem allWritable_nil : allWritable [] := by
  intro kd h; cases h

theorem allWritable_cons {k : String} {d : FieldDesc} {fs : Fields}
    (hd : d.writable = true) (hfs : allWritable fs) : allWritable ((k, d) :: fs) := by
  intro kd h
  rcases List.mem_cons.mp h with h1 | h2
  · subst h1; exact hd
  · exact hfs kd h2

theorem allWritable_of_cons {k : String} {d : FieldDesc} {fs : Fields}
    (h : allWritable ((k, d) :: fs)) : allWritable fs :=
  fun kd hm => h kd (List.mem_cons_of_mem _ hm)

theorem allWritable_jsSetField {fs : Fields} (h : allWritable fs) (k : String) (v : JSValue) :
    allWritable (jsSetField fs k v) := by
  induction fs with
  | nil =>
    intro kd hm
    rcases List.mem_singleton.mp hm with rfl
    rfl
  | cons kd rest ih =>
    obtain ⟨k', d⟩ := kd
    have hd : d.writable = true := h (k', d) (List.mem_cons_self _ _)
    have hrest := allWritable_of_cons h
    rw [jsSetField_cons]
    by_cases hk : k' = k
    · simp only [hk, if_pos rfl, hd, if_pos rfl]
      exact allWritable_cons rfl hrest
    · simp only [if_neg hk]
      exact allWritable_cons hd (ih hrest)

theorem valueOf_jsSetField_self {fs : Fields} (h : allWritable fs) (k : String) (v : JSValue) :
    valueOf (jsSetField fs k v) k = some v := by
  induction fs with
  | nil => simp [jsSetField, valueOf, getOwn_cons]
  | cons kd rest ih =>
    obtain ⟨k', d⟩ := kd
    have hd : d.writable = true := h (k', d) (List.mem_cons_self _ _)
    rw [jsSetField_cons]
    by_cases hk : k' = k
    · simp only [hk, if_pos rfl, hd, if_pos rfl]
      simp [valueOf, getOwn_cons]
    · simp only [if_neg hk]
      simpa [valueOf, getOwn_cons, hk] using ih (allWritable_of_cons h)

theorem valueOf_jsSetField_other (fs : Fields) {j k : String} (hne : j ≠ k) (v : JSValue) :
    valueOf (jsSetField fs k v) j = valueOf fs j := by
  induction fs with
  | nil => simp [jsSetField, valueOf, getOwn_cons, Ne.symm hne]
  | cons kd rest ih =>
    obtain ⟨k', d⟩ := kd
    rw [jsSetField_cons]
    by_cases hk : k' = k
    · subst hk
      have hkj : ¬ (k' = j) := fun h => hne (h.symm)
      by_cases hw : d.writable = true
      · simp [hw, valueOf, getOwn_cons, hkj]
      · simp [hw, valueOf, getOwn_cons, hkj]
    · simp only [if_neg hk]
      by_cases hkj : k' = j
      · simp [valueOf, getOwn_cons, hkj]
      · simpa [valueOf, getOwn_cons, hkj] using ih

theorem isSome_valueOf_jsSetField_self (fs : Fields) (k : String) (v : JSValue) :
    (valueOf (jsSetField fs k v) k).isSome = true := by
  induction fs with
  | nil => simp [jsSetField, valueOf, getOwn_cons]
  | cons kd rest ih =>
    obtain ⟨k', d⟩ := kd
    rw [jsSetField_cons]
    by_cases hk : k' = k
    · by_cases hw : d.writable = true
      · simp [hk, hw, valueOf, getOwn_cons]
      · simp [hk, hw, valueOf, getOwn_cons]
    · simpa [hk, valueOf, getOwn_cons] using ih

theorem allWritable_objectAssign {fs : Fields} (h : allWritable fs)
    (P : List (String × JSValue)) : allWritable (objectAssign fs P) := by
  induction P generalizing fs with
  | nil => exact h
  | cons kv rest ih => exact ih (allWritable_jsSetField h kv.1 kv.2)

theorem valueOf_objectAssign_notMem {P : List (String × JSValue)} {k : String}
    (hk : k ∉ P.map Prod.fst) (fs : Fields) :
    valueOf (objectAssign fs P) k = valueOf fs k := by
  induction P generalizing fs with
  | nil => rfl
  | cons kv rest ih =>
    have hk1 : k ≠ kv.1 := by
      intro h; exact hk (by simp [h])
    have hkr : k ∉ rest.map Prod.fst := fun h => hk (by simp [h])
    calc valueOf (objectAssign (jsSetField fs kv.1 kv.2) rest) k
        = valueOf (jsSetField fs kv.1 kv.2) k := ih hkr _
      _ = valueOf fs k := valueOf_jsSetField_other fs hk1 kv.2

theorem valueOf_objectAssign_mem {fs : Fields} (hw : allWritable fs)
    {P : List (String × JSValue)} (hnd : (P.map Prod.fst).Nodup)
    {k : String} {v : JSValue} (hmem : (k, v) ∈ P) :
    valueOf (objectAssign fs P) k = some v := by
  induction P generalizing fs with
  | nil => cases hmem
  | cons kv rest ih =>
    rcases List.mem_cons.mp hmem with h1 | h2
    · subst h1
      have hnotin : k ∉ rest.map Prod.fst := by
        simpa using (List.nodup_cons.mp hnd).1
      calc valueOf (objectAssign (jsSetField fs k v) rest) k
          = valueOf (jsSetField fs k v) k := valueOf_objectAssign_notMem hnotin _
        _ = some v := valueOf_jsSetField_self hw k v
    · exact ih (allWritable_jsSetField hw kv.1 kv.2) (List.nodup_cons.mp hnd).2 h2

theorem isSome_valueOf_objectAssign {fs : Fields} {k : String}
    (h : (valueOf fs k).isSome = true) (P : List (String × JSValue)) :
    (valueOf (objectAssign fs P) k).isSome = true := by
  induction P generalizing fs with
  | nil => exact h
  | cons kv rest ih =>
    by_cases hk : k = kv.1
    · refine ih ?_
      rw [hk]
      exact isSome_valueOf_jsSetField_self fs kv.1 kv.2
    · refine ih ?_
      rw [valueOf_jsSetField_other fs hk kv.2]
      exact h

/-! Closed forms of the construction. -/

theorem preMergeFields_eq (tag stackVal : String) :
    defineOwnField (errorSuper tag stackVal) "_tag" (.str tag) =
      preMergeFields tag stackVal := rfl

theorem allWritable_preMergeFields (tag stackVal : String) :
    allWritable (preMergeFields tag stackVal) := by
  intro kd hm
  simp only [preMergeFields, List.mem_cons] at hm
  rcases hm with h | h | h | h <;> first | (subst h; rfl) | cases h

theorem construct_none_fields (cls : VariantClass) (stackVal : String) :
    (construct cls none stackVal).fields =
      [("message", ⟨.str cls.tag, true, false⟩),
       ("stack", ⟨.str stackVal, true, false⟩),
       ("_tag", ⟨.str cls.tag, true, true⟩),
       ("name", ⟨.str cls.tag, true, true⟩)] := rfl

theorem construct_some_fields (cls : VariantClass) (P : List (String × JSValue))
    (stackVal : String) :
    (construct cls (some P) stackVal).fields =
      jsSetField (objectAssign (preMergeFields cls.tag stackVal) P) "name" (.str cls.tag) := rfl

theorem construct_protoChain (cls : VariantClass) (props : Option (List (String × JSValue)))
    (stackVal : String) :
    (construct cls props stackVal).protoChain = [cls.classId, errorClassId] := by
  cases props <;> rfl

theorem construct_TE_some_fields (T : String) (st : Nat) (P : List (String × JSValue))
    (stk : String) :
    (construct (TaggedError T st).1 (some P) stk).fields =
      jsSetField (objectAssign (preMergeFields T stk) P) "name" (.str T) := rfl

theorem getOwnValue_construct_some_of_ne_name (T : String) (st : Nat)
    (P : List (String × JSValue)) (stk : String) (k : String) (hk : k ≠ "name") :
    getOwnValue (construct (TaggedError T st).1 (some P) stk) k =
      valueOf (objectAssign (preMergeFields T stk) P) k := by
  show valueOf (jsSetField (objectAssign (preMergeFields T stk) P) "name" (.str T)) k = _
  exact valueOf_jsSetField_other _ hk _

theorem getOwnValue_construct_some_name (T : String) (st : Nat)
    (P : List (String × JSValue)) (stk : String) :
    getOwnValue (construct (TaggedError T st).1 (some P) stk) "name" = some (.str T) := by
  show valueOf (jsSetField (objectAssign (preMergeFields T stk) P) "name" (.str T))
    "name" = _
  exact valueOf_jsSetField_self (allWritable_objectAssign (allWritable_preMergeFields T stk) P) _ _

theorem getOwnValue_construct_some_mem (T : String) (st : Nat)
    {P : List (String × JSValue)} (hnd : (P.map Prod.fst).Nodup) (stk : String)
    {k : String} {v : JSValue} (hkv : (k, v) ∈ P) (hk : k ≠ "name") :
    getOwnValue (construct (TaggedError T st).1 (some P) stk) k = some v := by
  rw [getOwnValue_construct_some_of_ne_name T st P stk k hk]
  exact valueOf_objectAssign_mem (allWritable_preMergeFields T stk) hnd hkv

theorem isSome_getOwnValue_construct_some (T : String) (st : Nat)
    (P : List (String × JSValue)) (stk : String) {k : String} (hk : k ≠ "name")
    (h : (valueOf (preMergeFields T stk) k).isSome = true) :
    (getOwnValue (construct (TaggedError T st).1 (some P) stk) k).isSome = true := by
  rw [getOwnValue_construct_some_of_ne_name T st P stk k hk]
  exact isSome_valueOf_objectAssign h P

/-! Claim theorems. -/

/-- C1: For every non-empty tag string T, invoking the constructor returned by
TaggedError(T) with no properties yields an instance whose _tag equals T, whose
name equals T, whose message equals T, and which is an instance of the base
Error kind. -/
theorem C1_default_fields (T : String) (hT : T ≠ "") (st : Nat) (stackVal : String) :
    getOwnValue (construct (TaggedError T st).1 none stackVal) "_tag" = some (.str T) ∧
    getOwnValue (construct (TaggedError T st).1 none stackVal) "name" = some (.str T) ∧
    getOwnValue (construct (TaggedError T st).1 none stackVal) "message" = some (.str T) ∧
    instanceOfError (construct (TaggedError T st).1 none stackVal) = true := by
  refine ⟨rfl, rfl, rfl, ?_⟩
  rfl

/-- Witness for C1 at the concrete tag "MyCustomError". -/
theorem C1_default_fields_witness :
    getOwnValue (construct (TaggedError "MyCustomError" 0).1 none "tr") "_tag" =
      some (.str "MyCustomError") ∧
    getOwnValue (construct (TaggedError "MyCustomError" 0).1 none "tr") "name" =
      some (.str "MyCustomError") ∧
    getOwnValue (construct (TaggedError "MyCustomError" 0).1 none "tr") "message" =
      some (.str "MyCustomError") ∧
    instanceOfError (construct (TaggedError "MyCustomError" 0).1 none "tr") = true :=
  C1_default_fields "MyCustomError" (by decide) 0 "tr"

/-- C3: Every instance constructed from a variant class V is simultaneously an
instance of V and of the base Error kind, and for two factory calls with
distinct tags A and B (the second call starting from the allocation state the
first one left), an instance built from the first class is never an instance of
the second, nor vice versa. -/
theorem C3_instanceof_exclusive (A B : String) (hAB : A ≠ B) (st : Nat)
    (pA pB : Option (List (String × JSValue))) (sA sB : String) :
    instanceOfVariant (construct (TaggedError A st).1 pA sA) (TaggedError A st).1 = true ∧
    instanceOfError (construct (TaggedError A st).1 pA sA) = true ∧
    instanceOfVariant (construct (TaggedError A st).1 pA sA)
      (TaggedError B (TaggedError A st).2).1 = false ∧
    instanceOfVariant (construct (TaggedError B (TaggedError A st).2).1 pB sB)
      (TaggedError A st).1 = false := by
  refine ⟨?_, ?_, ?_, ?_⟩ <;>
    simp [instanceOfVariant, instanceOfError, construct_protoChain, TaggedError,
      errorClassId, List.contains]

/-- Witness for C3 at the concrete tags "ErrorA" and "ErrorB". -/
theorem C3_instanceof_exclusive_witness :
    instanceOfVariant (construct (TaggedError "ErrorA" 0).1 none "tr")
      (TaggedError "ErrorA" 0).1 = true ∧
    instanceOfError (construct (TaggedError "ErrorA" 0).1 none "tr") = true ∧
    instanceOfVariant (construct (TaggedError "ErrorA" 0).1 none "tr")
      (TaggedError "ErrorB" (TaggedError "ErrorA" 0).2).1 = false ∧
    instanceOfVariant
      (construct (TaggedError "ErrorB" (TaggedError "ErrorA" 0).2).1 none "tr")
      (TaggedError "ErrorA" 0).1 = false :=
  C3_instanceof_exclusive "ErrorA" "ErrorB" (by decide) 0 none none "tr" "tr"

/-- C4: Two calls of the factory with the same tag (the second starting from
the allocation state the first one left) yield non-identical classes whose tags
are nevertheless equal, and an instance built from either class is not an
instance of the other. -/
theorem C4_same_tag_distinct_classes (T : String) (st : Nat)
    (p1 p2 : Option (List (String × JSValue))) (s1 s2 : String) :
    (TaggedError T st).1.tag = (TaggedError T (TaggedError T st).2).1.tag ∧
    (TaggedError T st).1 ≠ (TaggedError T (TaggedError T st).2).1 ∧
    instanceOfVariant (construct (TaggedError T st).1 p1 s1)
      (TaggedError T (TaggedError T st).2).1 = false ∧
    instanceOfVariant (construct (TaggedError T (TaggedError T st).2).1 p2 s2)
      (TaggedError T st).1 = false := by
  refine ⟨rfl, ?_, ?_, ?_⟩ <;>
    simp [instanceOfVariant, construct_protoChain, TaggedError, errorClassId,
      List.contains, VariantClass.mk.injEq]

/-- C9: The _tag own property of a constructed instance is writable (despite
the readonly type-level declaration), and an ordinary assignment of a fresh
value to it succeeds and changes the observed value. -/
theorem C9_tag_mutable (T : String) (st : Nat) (stackVal : String) (v : JSValue)
    (hv : v ≠ .str T) :
    (getOwn (construct (TaggedError T st).1 none stackVal).fields "_tag").map
      FieldDesc.writable = some true ∧
    getOwnValue (jsSet (construct (TaggedError T st).1 none stackVal) "_tag" v) "_tag" =
      some v ∧
    getOwnValue (jsSet (construct (TaggedError T st).1 none stackVal) "_tag" v) "_tag" ≠
      getOwnValue (construct (TaggedError T st).1 none stackVal) "_tag" := by
  refine ⟨rfl, rfl, ?_⟩
  have h1 : getOwnValue (jsSet (construct (TaggedError T st).1 none stackVal) "_tag" v)
      "_tag" = some v := rfl
  have h2 : getOwnValue (construct (TaggedError T st).1 none stackVal) "_tag" =
      some (.str T) := rfl
  rw [h1, h2]
  simp [hv]

/-- Witness for C9 at the concrete tag "TaggedErr" and new value "changed". -/
theorem C9_tag_mutable_witness :
    (getOwn (construct (TaggedError "TaggedErr" 0).1 none "tr").fields "_tag").map
      FieldDesc.writable = some true ∧
    getOwnValue (jsSet (construct (TaggedError "TaggedErr" 0).1 none "tr") "_tag"
      (.str "changed")) "_tag" = some (.str "changed") ∧
    getOwnValue (jsSet (construct (TaggedError "TaggedErr" 0).1 none "tr") "_tag"
      (.str "changed")) "_tag" ≠
      getOwnValue (construct (TaggedError "TaggedErr" 0).1 none "tr") "_tag" :=
  C9_tag_mutable "TaggedErr" 0 "tr" (.str "changed") (by decide)

/-- C10: When the supplied property map collides with reserved names the
outcome differs per field: a supplied _tag or message value ends up as the
instance's _tag/message (the property wins, because the _tag field initializer
and the base Error construction run before the merge), while name is assigned
the tag after the merge, so name always equals the tag. -/
theorem C10_collision_outcome_per_field (T : String) (P : List (String × JSValue))
    (hnd : (P.map Prod.fst).Nodup) (st : Nat) (stk : String) (vt vm : JSValue)
    (ht : ("_tag", vt) ∈ P) (hm : ("message", vm) ∈ P) :
    getOwnValue (construct (TaggedError T st).1 (some P) stk) "_tag" = some vt ∧
    getOwnValue (construct (TaggedError T st).1 (some P) stk) "message" = some vm ∧
    getOwnValue (construct (TaggedError T st).1 (some P) stk) "name" = some (.str T) :=
  ⟨getOwnValue_construct_some_mem T st hnd stk ht (by decide),
   getOwnValue_construct_some_mem T st hnd stk hm (by decide),
   getOwnValue_construct_some_name T st P stk⟩

/-- Witness for C10 at the concrete tag "T10" with supplied _tag, message and
name values. -/
theorem C10_collision_outcome_per_field_witness :
    getOwnValue (construct (TaggedError "T10" 0).1
      (some [("_tag", .str "a"), ("message", .str "b"), ("name", .str "c")]) "tr")
      "_tag" = some (.str "a") ∧
    getOwnValue (construct (TaggedError "T10" 0).1
      (some [("_tag", .str "a"), ("message", .str "b"), ("name", .str "c")]) "tr")
      "message" = some (.str "b") ∧
    getOwnValue (construct (TaggedError "T10" 0).1
      (some [("_tag", .str "a"), ("message", .str "b"), ("name", .str "c")]) "tr")
      "name" = some (.str "T10") :=
  C10_collision_outcome_per_field "T10"
    [("_tag", .str "a"), ("message", .str "b"), ("name", .str "c")]
    (by decide) 0 "tr" (.str "a") (.str "b") (by decide) (by decide)

/-- C2 counterexample: the claim says EVERY key of P is present with the same
value, but a supplied "name" property does not keep its value — the
constructor assigns the tag to name after the merge. -/
theorem C2_counterexample :
    getOwnValue (construct (TaggedError "T2" 0).1 (some [("name", .str "x")]) "tr")
      "name" ≠ some (.str "x") := by decide

/-- C2 (amended): every key of P other than "name" is present as an own field
with the supplied value; the default fields _tag, message and trace (stack) are
present as well, and name is present but equals the tag. -/
theorem C2_props_merged (T : String) (P : List (String × JSValue))
    (hnd : (P.map Prod.fst).Nodup) (k : String) (v : JSValue)
    (hkv : (k, v) ∈ P) (hk : k ≠ "name") (st : Nat) (stk : String) :
    getOwnValue (construct (TaggedError T st).1 (some P) stk) k = some v ∧
    (getOwnValue (construct (TaggedError T st).1 (some P) stk) "_tag").isSome = true ∧
    (getOwnValue (construct (TaggedError T st).1 (some P) stk) "message").isSome = true ∧
    (getOwnValue (construct (TaggedError T st).1 (some P) stk) "stack").isSome = true ∧
    getOwnValue (construct (TaggedError T st).1 (some P) stk) "name" = some (.str T) :=
  ⟨getOwnValue_construct_some_mem T st hnd stk hkv hk,
   isSome_getOwnValue_construct_some T st P stk (by decide) rfl,
   isSome_getOwnValue_construct_some T st P stk (by decide) rfl,
   isSome_getOwnValue_construct_some T st P stk (by decide) rfl,
   getOwnValue_construct_some_name T st P stk⟩

/-- Witness for C2 at the HttpError scenario of the spec. -/
theorem C2_props_merged_witness :
    getOwnValue (construct (TaggedError "HttpError" 0).1
      (some [("statusCode", .num 404), ("url", .str "x")]) "tr")
      "statusCode" = some (.num 404) ∧
    (getOwnValue (construct (TaggedError "HttpError" 0).1
      (some [("statusCode", .num 404), ("url", .str "x")]) "tr") "_tag").isSome = true ∧
    (getOwnValue (construct (TaggedError "HttpError" 0).1
      (some [("statusCode", .num 404), ("url", .str "x")]) "tr") "message").isSome = true ∧
    (getOwnValue (construct (TaggedError "HttpError" 0).1
      (some [("statusCode", .num 404), ("url", .str "x")]) "tr") "stack").isSome = true ∧
    getOwnValue (construct (TaggedError "HttpError" 0).1
      (some [("statusCode", .num 404), ("url", .str "x")]) "tr")
      "name" = some (.str "HttpError") :=
  C2_props_merged "HttpError" [("statusCode", .num 404), ("url", .str "x")]
    (by decide) "statusCode" (.num 404) (by decide) (by decide) 0 "tr"

/-- C5 counterexample: the claim says the supplied property wins for each of
_tag, name, message and trace, but a supplied "name" value does not win — the
constructor overwrites it with the tag after the merge. -/
theorem C5_counterexample :
    getOwnValue (construct (TaggedError "T5" 0).1 (some [("name", .str "n5")]) "tr")
      "name" ≠ some (.str "n5") := by decide

/-- C5 (amended): supplied _tag, message and trace (stack) values overwrite the
corresponding reserved fields, but a supplied name value is itself overwritten
by the tag: after construction name equals the tag. -/
theorem C5_reserved_collision (T : String) (P : List (String × JSValue))
    (hnd : (P.map Prod.fst).Nodup) (st : Nat) (stk : String) (vt vm vs vn : JSValue)
    (ht : ("_tag", vt) ∈ P) (hm : ("message", vm) ∈ P) (hs : ("stack", vs) ∈ P)
    (hn : ("name", vn) ∈ P) :
    getOwnValue (construct (TaggedError T st).1 (some P) stk) "_tag" = some vt ∧
    getOwnValue (construct (TaggedError T st).1 (some P) stk) "message" = some vm ∧
    getOwnValue (construct (TaggedError T st).1 (some P) stk) "stack" = some vs ∧
    getOwnValue (construct (TaggedError T st).1 (some P) stk) "name" = some (.str T) :=
  ⟨getOwnValue_construct_some_mem T st hnd stk ht (by decide),
   getOwnValue_construct_some_mem T st hnd stk hm (by decide),
   getOwnValue_construct_some_mem T st hnd stk hs (by decide),
   getOwnValue_construct_some_name T st P stk⟩

/-- Witness for C5 at tag "T5w" with all four reserved keys supplied. -/
theorem C5_reserved_collision_witness :
    getOwnValue (construct (TaggedError "T5w" 0).1
      (some [("_tag", .str "a"), ("message", .str "b"), ("stack", .str "c"),
             ("name", .str "d")]) "tr") "_tag" = some (.str "a") ∧
    getOwnValue (construct (TaggedError "T5w" 0).1
      (some [("_tag", .str "a"), ("message", .str "b"), ("stack", .str "c"),
             ("name", .str "d")]) "tr") "message" = some (.str "b") ∧
    getOwnValue (construct (TaggedError "T5w" 0).1
      (some [("_tag", .str "a"), ("message", .str "b"), ("stack", .str "c"),
             ("name", .str "d")]) "tr") "stack" = some (.str "c") ∧
    getOwnValue (construct (TaggedError "T5w" 0).1
      (some [("_tag", .str "a"), ("message", .str "b"), ("stack", .str "c"),
             ("name", .str "d")]) "tr") "name" = some (.str "T5w") :=
  C5_reserved_collision "T5w"
    [("_tag", .str "a"), ("message", .str "b"), ("stack", .str "c"), ("name", .str "d")]
    (by decide) 0 "tr" (.str "a") (.str "b") (.str "c") (.str "d")
    (by decide) (by decide) (by decide) (by decide)

/-- C6 counterexample: the claim says the properties are merged FIRST and the
discriminant is set afterwards, so _tag would equal the tag even when the
property map supplies a _tag key; in the code the _tag field initializer runs
before the merge, so the supplied value survives. -/
theorem C6_counterexample :
    getOwnValue (construct (TaggedError "T6" 0).1 (some [("_tag", .str "u6")]) "tr")
      "_tag" ≠ some (.str "T6") := by decide

/-- C6 (amended): the discriminant field is initialized to the tag BEFORE the
caller properties are merged (so a supplied _tag key overwrites it), and only
the display name is set after the merge, so name equals the tag even when the
property map supplies _tag or name keys. -/
theorem C6_construction_order (T : String) (P : List (String × JSValue))
    (hnd : (P.map Prod.fst).Nodup) (st : Nat) (stk : String) (v : JSValue)
    (hv : ("_tag", v) ∈ P) :
    getOwnValue (construct (TaggedError T st).1 (some P) stk) "_tag" = some v ∧
    getOwnValue (construct (TaggedError T st).1 (some P) stk) "name" = some (.str T) :=
  ⟨getOwnValue_construct_some_mem T st hnd stk hv (by decide),
   getOwnValue_construct_some_name T st P stk⟩

/-- Witness for C6 at tag "T6w" with a supplied _tag key. -/
theorem C6_construction_order_witness :
    getOwnValue (construct (TaggedError "T6w" 0).1 (some [("_tag", .str "u")]) "tr")
      "_tag" = some (.str "u") ∧
    getOwnValue (construct (TaggedError "T6w" 0).1 (some [("_tag", .str "u")]) "tr")
      "name" = some (.str "T6w") :=
  C6_construction_order "T6w" [("_tag", .str "u")] (by decide) 0 "tr" (.str "u")
    (by decide)

/-- C7 counterexample: calling the factory with the empty tag does not fail; it
returns a working constructor whose instance carries the empty string as _tag
and message and is an instance of the base Error kind. -/
theorem C7_counterexample :
    getOwnValue (construct (TaggedError "" 0).1 none "tr") "_tag" = some (.str "") ∧
    getOwnValue (construct (TaggedError "" 0).1 none "tr") "message" = some (.str "") ∧
    instanceOfError (construct (TaggedError "" 0).1 none "tr") = true := by decide

/-- C7 (amended): the factory performs no tag validation at all — for every
tag, the empty string included, it succeeds and returns a fresh constructor
whose instances carry the tag (possibly empty) as _tag and message and pass
both instanceof checks; no precondition error is raised at the factory call. -/
theorem C7_no_validation (T : String) (st : Nat) (stk : String) :
    (TaggedError T st).1.tag = T ∧
    getOwnValue (construct (TaggedError T st).1 none stk) "_tag" = some (.str T) ∧
    getOwnValue (construct (TaggedError T st).1 none stk) "message" = some (.str T) ∧
    instanceOfVariant (construct (TaggedError T st).1 none stk) (TaggedError T st).1 =
      true ∧
    instanceOfError (construct (TaggedError T st).1 none stk) = true := by
  refine ⟨rfl, rfl, rfl, ?_, ?_⟩ <;>
    simp [instanceOfVariant, instanceOfError, construct_protoChain, TaggedError,
      errorClassId, List.contains]

/-- C8 counterexample: the claim says the own ENUMERABLE field set is exactly
the four defaults, but the base Error mechanism installs message and the trace
(stack) as non-enumerable own fields, so neither appears among the enumerable
own keys. -/
theorem C8_counterexample :
    "message" ∉ enumOwnKeys (construct (TaggedError "Empty" 0).1 none "tr") ∧
    "stack" ∉ enumOwnKeys (construct (TaggedError "Empty" 0).1 none "tr") ∧
    enumOwnKeys (construct (TaggedError "Empty" 0).1 none "tr") = ["_tag", "name"] := by
  decide

/-- C8 (amended): constructing with no properties never fails and yields an
own-field set of exactly message, stack (the trace), _tag and name — no stray
fields; of these, only _tag and name are enumerable, message and the trace
being the base error mechanism's non-enumerable contributions. -/
theorem C8_own_field_set (T : String) (hT : T ≠ "") (st : Nat) (stk : String) :
    ownKeys (construct (TaggedError T st).1 none stk) =
      ["message", "stack", "_tag", "name"] ∧
    enumOwnKeys (construct (TaggedError T st).1 none stk) = ["_tag", "name"] :=
  ⟨rfl, rfl⟩

/-- Witness for C8 at the concrete tag "NoProps". -/
theorem C8_own_field_set_witness :
    ownKeys (construct (TaggedError "NoProps" 0).1 none "tr") =
      ["message", "stack", "_tag", "name"] ∧
    enumOwnKeys (construct (TaggedError "NoProps" 0).1 none "tr") = ["_tag", "name"] :=
  C8_own_field_set "NoProps" (by decide) 0 "tr"

end SimpleTaggedError
